import Mathlib

/-!
Verification development for the attendance-tracking backend
(Express controllers over a Sequelize relational schema).

The database state is embedded as lists of rows; each controller action
becomes a pure function from a request and a database state to a
response and a new database state.  Query-string and body parameters
that may be absent are `Option`s; JavaScript truthiness tests on them
are modelled by `jsTruthyStr` / `jsTruthyNat` (the empty string and 0
are falsy).  A JavaScript exception that reaches the catch block of a
handler (and is then passed to the central error handler) is modelled
by the response constructor `Resp.internalError`.
-/

/-- Response of a handler: `ok code` for a success JSON reply,
`err code msg` for a `success:false` reply with an HTTP status, and
`internalError msg` for an exception passed to the error middleware. -/
inductive Resp where
  | ok (code : Nat)
  | err (code : Nat) (msg : String)
  | internalError (msg : String)
deriving DecidableEq

/-- JavaScript truthiness of an optional string value: `undefined`,
`null` and the empty string are falsy. -/
def jsTruthyStr : Option String → Bool
  | none => false
  | some s => !(s == "")

/-- JavaScript truthiness of an optional number value: `undefined`,
`null` and `0` are falsy. -/
def jsTruthyNat : Option Nat → Bool
  | none => false
  | some n => !(n == 0)

/-- The JavaScript expression `a || b` for an optional string `a`
against a default `b`. -/
def jsOrStr (a : Option String) (b : String) : String :=
  if jsTruthyStr a then a.getD b else b

/-- Lexicographic comparison of character lists; on `YYYY-MM-DD` date
strings this coincides with the chronological order used by the SQL
`DATEONLY` comparisons behind `Op.gte` / `Op.lte`. -/
def charListLe : List Char → List Char → Bool
  | [], _ => true
  | _ :: _, [] => false
  | a :: as, b :: bs => if a < b then true else if a = b then charListLe as bs else false

/-- Date comparison used by the inclusive date-range filters. -/
def dateLe (a b : String) : Bool := charListLe a.toList b.toList

/-- The controller regular expression test for dates:
matches the source pattern of four digits, a dash, two digits, a dash,
two digits, anchored at both ends. -/
def dateRegexTest (s : String) : Bool :=
  match s.toList with
  | [a, b, c, d, e, f, g, h, i, j] =>
      a.isDigit && b.isDigit && c.isDigit && d.isDigit &&
      (e = '-') && f.isDigit && g.isDigit && (h = '-') && i.isDigit && j.isDigit
  | _ => false

/-- The enumerated attendance status values used by the controllers. -/
def validStatuses : List String := ["present", "absent", "late", "excused"]

/-- The enumerated session status values checked by `updateSession`. -/
def validSessionStatuses : List String :=
  ["scheduled", "in-progress", "completed", "cancelled"]

/-- A row of the Users table (fields the controllers consult). -/
structure UserRow where
  id : Nat
  role : String
  batchId : Option Nat
  divisionId : Option Nat
deriving DecidableEq

/-- A row of the Batches table. -/
structure BatchRow where
  id : Nat
  name : String
  year : Nat
  isActive : Bool
deriving DecidableEq

/-- A row of the Divisions table. -/
structure DivisionRow where
  id : Nat
  name : String
  isActive : Bool
deriving DecidableEq

/-- A row of the SessionTypes table. -/
structure SessionTypeRow where
  id : Nat
  name : String
deriving DecidableEq

/-- A row of the Sessions table. -/
structure SessionRow where
  id : Nat
  date : String
  sessionTypeId : Nat
  batchId : Nat
  status : String
  notes : Option String
deriving DecidableEq

/-- A row of the Attendance table. -/
structure AttendanceRow where
  id : Nat
  sessionId : Nat
  userId : Nat
  status : String
  notes : Option String
  verifiedBy : Option Nat
  verifiedAt : Option Nat
deriving DecidableEq

/-- The database state: the tables the specified operations touch,
plus the next auto-increment identifiers for Sessions and Attendance. -/
structure DB where
  users : List UserRow
  batches : List BatchRow
  divisions : List DivisionRow
  sessionTypes : List SessionTypeRow
  sessions : List SessionRow
  attendance : List AttendanceRow
  nextSessionId : Nat
  nextAttendanceId : Nat
deriving DecidableEq

/-- The santri-role users of a batch, as queried by the controllers
(`User.findAll({ where: { batchId, role: ... } })`). -/
def santriUsersOfBatch (db : DB) (batchId : Nat) : List UserRow :=
  db.users.filter (fun u => u.batchId == some batchId && u.role == "santri")

/-- `Attendance.bulkCreate`: builds one row per user id, with the given
status, notes and verifier stamp, assigning consecutive fresh ids. -/
def mkAttendanceRows (startId sessionId : Nat) (userIds : List Nat)
    (status : String) (notes : Option String)
    (vBy vAt : Option Nat) : List AttendanceRow :=
  match userIds with
  | [] => []
  | u :: us =>
      { id := startId, sessionId := sessionId, userId := u, status := status,
        notes := notes, verifiedBy := vBy, verifiedAt := vAt }
        :: mkAttendanceRows (startId + 1) sessionId us status notes vBy vAt

/-- `updateBatch` from `batch.controller.js`.  The controller imports
only the models (`Batch`, `User`); `Op` is not imported in that module,
so when both `name` and `year` are truthy the duplicate check evaluates
`{ id: { [Op.ne]: req.params.id } }`, which raises a `ReferenceError`
that the catch block passes to `next(error)`. -/
def updateBatch (db : DB) (id : Nat) (name : Option String) (year : Option Nat)
    (isActive : Option Bool) : Resp × DB :=
  match db.batches.find? (fun b => b.id == id) with
  | none => (.err 404 s!"Batch with id {id} not found", db)
  | some batch =>
      if jsTruthyStr name && jsTruthyNat year then
        (.internalError "Op is not defined", db)
      else
        let updated : BatchRow :=
          { id := batch.id,
            name := jsOrStr name batch.name,
            year := if jsTruthyNat year then year.getD 0 else batch.year,
            isActive := isActive.getD batch.isActive }
        (.ok 200, { db with batches := db.batches.map (fun b => if b.id == id then updated else b) })

/-- `deleteBatch` from `batch.controller.js`: rejected when any user
references the batch through `batchId`, otherwise the row is destroyed. -/
def deleteBatch (db : DB) (id : Nat) : Resp × DB :=
  match db.batches.find? (fun b => b.id == id) with
  | none => (.err 404 s!"Batch with id {id} not found", db)
  | some _ =>
      let userCount := (db.users.filter (fun u => u.batchId == some id)).length
      if userCount > 0 then
        (.err 400 s!"Cannot delete batch with {userCount} associated users", db)
      else
        (.ok 200, { db with batches := db.batches.filter (fun b => !(b.id == id)) })

/-- `deleteDivision` from `division.controller.js`: rejected when any
user references the division through `divisionId`, otherwise destroyed. -/
def deleteDivision (db : DB) (id : Nat) : Resp × DB :=
  match db.divisions.find? (fun d => d.id == id) with
  | none => (.err 404 s!"Division with id {id} not found", db)
  | some _ =>
      let userCount := (db.users.filter (fun u => u.divisionId == some id)).length
      if userCount > 0 then
        (.err 400 s!"Cannot delete division with {userCount} associated users", db)
      else
        (.ok 200, { db with divisions := db.divisions.filter (fun d => !(d.id == id)) })

/-- `createSession` from `session.controller.js`: validates the date
format, the existence of the session type and batch, and uniqueness of
(date, sessionTypeId, batchId); then inserts the session with status
scheduled and bulk-creates one attendance row per santri user of the
batch with status absent and no verifier. -/
def createSession (db : DB) (date : String) (sessionTypeId batchId : Nat)
    (notes : Option String) : Resp × DB :=
  if !dateRegexTest date then
    (.err 400 "Date must be in YYYY-MM-DD format", db)
  else
    match db.sessionTypes.find? (fun t => t.id == sessionTypeId) with
    | none => (.err 404 s!"Session type with id {sessionTypeId} not found", db)
    | some _ =>
        match db.batches.find? (fun b => b.id == batchId) with
        | none => (.err 404 s!"Batch with id {batchId} not found", db)
        | some _ =>
            match db.sessions.find? (fun s =>
                s.date == date && s.sessionTypeId == sessionTypeId && s.batchId == batchId) with
            | some _ =>
                (.err 400 "A session already exists for this date, session type, and batch", db)
            | none =>
                let sid := db.nextSessionId
                let newSession : SessionRow :=
                  { id := sid, date := date, sessionTypeId := sessionTypeId,
                    batchId := batchId, status := "scheduled", notes := notes }
                let users := santriUsersOfBatch db batchId
                let rows := mkAttendanceRows db.nextAttendanceId sid (users.map (fun u => u.id))
                  "absent" none none none
                (.ok 201,
                  { db with
                      sessions := db.sessions ++ [newSession],
                      attendance := db.attendance ++ rows,
                      nextSessionId := sid + 1,
                      nextAttendanceId := db.nextAttendanceId + rows.length })

/-- `updateSession` from `session.controller.js`.  Note the source
reassigns `session` to the already-updated instance before testing
`batchId !== session.batchId`, so the branch that would delete and
regenerate attendance rows compares the new batch id with itself and
can never run; the embedding reproduces that comparison faithfully. -/
def updateSession (db : DB) (id : Nat) (date : Option String)
    (sessionTypeId batchId : Option Nat) (notes : Option String)
    (status : Option String) : Resp × DB :=
  match db.sessions.find? (fun s => s.id == id) with
  | none => (.err 404 s!"Session with id {id} not found", db)
  | some session =>
      if jsTruthyStr date && !dateRegexTest (date.getD "") then
        (.err 400 "Date must be in YYYY-MM-DD format", db)
      else if jsTruthyNat sessionTypeId &&
          (db.sessionTypes.find? (fun t => t.id == sessionTypeId.getD 0)).isNone then
        (.err 404 s!"Session type with id {sessionTypeId.getD 0} not found", db)
      else if jsTruthyNat batchId &&
          (db.batches.find? (fun b => b.id == batchId.getD 0)).isNone then
        (.err 404 s!"Batch with id {batchId.getD 0} not found", db)
      else
        let newDate := jsOrStr date session.date
        let newSessionTypeId :=
          if jsTruthyNat sessionTypeId then sessionTypeId.getD 0 else session.sessionTypeId
        let newBatchId := if jsTruthyNat batchId then batchId.getD 0 else session.batchId
        if (jsTruthyStr date || jsTruthyNat sessionTypeId || jsTruthyNat batchId) &&
            (db.sessions.find? (fun s =>
              !(s.id == id) && s.date == newDate &&
              s.sessionTypeId == newSessionTypeId && s.batchId == newBatchId)).isSome then
          (.err 400 "A session already exists for this date, session type, and batch", db)
        else if jsTruthyStr status && !(validSessionStatuses.contains (status.getD "")) then
          (.err 400 "Status must be one of: scheduled, in-progress, completed, cancelled", db)
        else
          let updated : SessionRow :=
            { id := session.id, date := newDate, sessionTypeId := newSessionTypeId,
              batchId := newBatchId,
              status := jsOrStr status session.status,
              notes := match notes with | some n => some n | none => session.notes }
          let db1 : DB :=
            { db with sessions := db.sessions.map (fun s => if s.id == id then updated else s) }
          -- the source now tests `batchId && batchId !== session.batchId` where
          -- `session` is the updated instance, so the test is false whenever
          -- `batchId` is truthy and the regeneration below is dead code
          if jsTruthyNat batchId && !(batchId.getD 0 == updated.batchId) then
            let db2 : DB :=
              { db1 with attendance := db1.attendance.filter (fun a => !(a.sessionId == id)) }
            let users := santriUsersOfBatch db2 (batchId.getD 0)
            let rows := mkAttendanceRows db2.nextAttendanceId id (users.map (fun u => u.id))
              "absent" none none none
            (.ok 200,
              { db2 with attendance := db2.attendance ++ rows,
                         nextAttendanceId := db2.nextAttendanceId + rows.length })
          else
            (.ok 200, db1)

/-- One `{id, status, notes?}` entry of the `attendanceData` array of
`bulkUpdateAttendance`.  A missing `id` is modelled as `0` and a missing
`status` as the empty string, the falsy values the source tests for. -/
structure AttendanceItem where
  id : Nat
  status : String
  notes : Option String
deriving DecidableEq

/-- The validation loop of `bulkUpdateAttendance`: returns the message
of the first invalid entry, or `none` when every entry is valid. -/
def findValidationError : List AttendanceItem → Option String
  | [] => none
  | it :: rest =>
      if it.id == 0 || it.status == "" then
        some "Each attendance item must have id and status"
      else if !(validStatuses.contains it.status) then
        some "Status must be one of: present, absent, late, excused"
      else findValidationError rest

/-- The per-entry write of `bulkUpdateAttendance`: the row whose primary
key equals the entry id and whose `sessionId` equals the given session
is updated (status, notes fallback, verifier stamp); every other row is
left alone.  Primary keys are unique, so the SQL update by id touches
exactly the row `findOne` located. -/
def updateRowWithItem (sessionId actor now : Nat) (it : AttendanceItem)
    (a : AttendanceRow) : AttendanceRow :=
  if a.id == it.id && a.sessionId == sessionId then
    { a with status := it.status,
             notes := match it.notes with | some n => some n | none => a.notes,
             verifiedBy := some actor, verifiedAt := some now }
  else a

/-- The sequential write loop of `bulkUpdateAttendance`. -/
def applyBulkUpdates (sessionId actor now : Nat) (items : List AttendanceItem)
    (att : List AttendanceRow) : List AttendanceRow :=
  items.foldl (fun acc it => acc.map (updateRowWithItem sessionId actor now it)) att

/-- `bulkUpdateAttendance` from `attendance.controller.js`: rejects an
empty array, a missing session, and any invalid entry before writing;
then updates row by row, skipping entries with no matching row in the
session. -/
def bulkUpdateAttendance (db : DB) (sessionId : Nat) (items : List AttendanceItem)
    (actor now : Nat) : Resp × DB :=
  if items.isEmpty then
    (.err 400 "attendanceData must be a non-empty array", db)
  else
    match db.sessions.find? (fun s => s.id == sessionId) with
    | none => (.err 404 s!"Session with id {sessionId} not found", db)
    | some _ =>
        match findValidationError items with
        | some msg => (.err 400 msg, db)
        | none =>
            (.ok 200,
              { db with attendance := applyBulkUpdates sessionId actor now items db.attendance })

/-- The session filter shared by `getAttendanceStats` and
`getAttendanceReports`: inclusive date range (`Op.gte` / `Op.lte`) and
exact batch match; an absent parameter imposes no constraint. -/
def sessionMatchesFilter (startDate endDate : Option String) (batchId : Option Nat)
    (s : SessionRow) : Bool :=
  (match startDate with | none => true | some d => dateLe d s.date) &&
  (match endDate with | none => true | some d => dateLe s.date d) &&
  (match batchId with | none => true | some b => s.batchId == b)

/-- The statistics object returned by `getAttendanceStats`.  The rate is
carried as a rational, the idealisation of the JavaScript number. -/
structure StatsData where
  totalSessions : Nat
  totalAttendanceRecords : Nat
  present : Nat
  absent : Nat
  late : Nat
  excused : Nat
  attendanceRate : Rat
deriving DecidableEq

/-- Rounding to two decimals, the idealisation of
`parseFloat(x.toFixed(2))`. -/
def round2 (q : Rat) : Rat := (round (q * 100) : Int) / 100

/-- The attendance-rate formula shared by the source handlers:
`total > 0 ? ((present + late) / total) * 100 : 0`. -/
def rateOf (p l total : Nat) : Rat :=
  if total > 0 then (((p : Rat) + (l : Rat)) / (total : Rat)) * 100 else 0

/-- The zeroed structure returned when no session matches. -/
def zeroStats : StatsData :=
  { totalSessions := 0, totalAttendanceRecords := 0, present := 0, absent := 0,
    late := 0, excused := 0, attendanceRate := 0 }

/-- `getAttendanceStats` from `attendance.controller.js`: filters the
sessions, early-returns the zeroed structure when none matches, and
otherwise counts attendance rows of the matching sessions globally and
per status, computing the rounded rate (present + late) / total x 100. -/
def getAttendanceStats (db : DB) (startDate endDate : Option String)
    (batchId : Option Nat) : StatsData :=
  let sessions := db.sessions.filter (sessionMatchesFilter startDate endDate batchId)
  let sessionIds := sessions.map (fun s => s.id)
  if sessionIds.isEmpty then zeroStats
  else
    let total := (db.attendance.filter (fun a => sessionIds.contains a.sessionId)).length
    let p := (db.attendance.filter (fun a =>
      sessionIds.contains a.sessionId && a.status == "present")).length
    let ab := (db.attendance.filter (fun a =>
      sessionIds.contains a.sessionId && a.status == "absent")).length
    let l := (db.attendance.filter (fun a =>
      sessionIds.contains a.sessionId && a.status == "late")).length
    let e := (db.attendance.filter (fun a =>
      sessionIds.contains a.sessionId && a.status == "excused")).length
    { totalSessions := sessions.length, totalAttendanceRecords := total,
      present := p, absent := ab, late := l, excused := e,
      attendanceRate := round2 (rateOf p l total) }

/-- `createAttendanceRecords` from `attendance.controller.js`: skips the
(sessionId, userId) pairs that already have a row and inserts the rest
with the requested (or default absent) status, stamping the acting user
and time; errors when the input is empty, the session is missing, the
status invalid, or every listed user already has a row. -/
def createAttendanceRecords (db : DB) (sessionId : Nat) (userIds : List Nat)
    (defaultStatus : Option String) (actor now : Nat) : Resp × DB :=
  if userIds.isEmpty then
    (.err 400 "userIds must be a non-empty array", db)
  else
    match db.sessions.find? (fun s => s.id == sessionId) with
    | none => (.err 404 s!"Session with id {sessionId} not found", db)
    | some _ =>
        let status := jsOrStr defaultStatus "absent"
        if !(validStatuses.contains status) then
          (.err 400 "Status must be one of: present, absent, late, excused", db)
        else
          let existingRecords := db.attendance.filter (fun a =>
            a.sessionId == sessionId && userIds.contains a.userId)
          let existingUserIds := existingRecords.map (fun a => a.userId)
          let newUserIds := userIds.filter (fun uid => !(existingUserIds.contains uid))
          if newUserIds.isEmpty then
            (.err 400 "All specified users already have attendance records for this session", db)
          else
            let rows := mkAttendanceRows db.nextAttendanceId sessionId newUserIds status
              none (some actor) (some now)
            (.ok 201,
              { db with attendance := db.attendance ++ rows,
                        nextAttendanceId := db.nextAttendanceId + rows.length })

/-- `generateAttendanceForBatch` from `attendance.controller.js`: like
`createAttendanceRecords` but the user set is the santri users of the
session batch; errors when the session or batch is missing, the status
invalid, the batch has no santri users, or all of them already have
rows. -/
def generateAttendanceForBatch (db : DB) (sessionId : Nat)
    (defaultStatus : Option String) (actor now : Nat) : Resp × DB :=
  match db.sessions.find? (fun s => s.id == sessionId) with
  | none => (.err 404 s!"Session with id {sessionId} not found", db)
  | some session =>
      if session.batchId == 0 then
        (.err 400 "Session is not associated with any batch", db)
      else
        let status := jsOrStr defaultStatus "absent"
        if !(validStatuses.contains status) then
          (.err 400 "Status must be one of: present, absent, late, excused", db)
        else
          let users := santriUsersOfBatch db session.batchId
          if users.isEmpty then
            (.err 404 "No users found in batch", db)
          else
            let userIds := users.map (fun u => u.id)
            let existingRecords := db.attendance.filter (fun a =>
              a.sessionId == sessionId && userIds.contains a.userId)
            let existingUserIds := existingRecords.map (fun a => a.userId)
            let newUsers := users.filter (fun u => !(existingUserIds.contains u.id))
            if newUsers.isEmpty then
              (.err 400 "All users in this batch already have attendance records for this session", db)
            else
              let rows := mkAttendanceRows db.nextAttendanceId sessionId
                (newUsers.map (fun u => u.id)) status none (some actor) (some now)
              (.ok 201,
                { db with attendance := db.attendance ++ rows,
                          nextAttendanceId := db.nextAttendanceId + rows.length })

/-- `bulkCreateUpdateFilteredAttendance` from `attendance.controller.js`.
After validating the input, the session and the status, the source
prepares the update and create lists and then calls
`sequelize.transaction(...)`; but the module only imports the models
and `Op`, never binds `sequelize`, so that call raises a
`ReferenceError` before any row is written (the transaction callback
containing every `save` and the `bulkCreate` is never entered) and the
catch block passes the error to `next(error)`. -/
def bulkCreateUpdateFilteredAttendance (db : DB) (sessionId : Nat)
    (userIds : List Nat) (status : String) (notes : Option String)
    (actor now : Nat) : Resp × DB :=
  if userIds.isEmpty then
    (.err 400 "userIds must be a non-empty array", db)
  else
    match db.sessions.find? (fun s => s.id == sessionId) with
    | none => (.err 404 s!"Session with id {sessionId} not found", db)
    | some _ =>
        if !(validStatuses.contains status) then
          (.err 400 "Status must be one of: present, absent, late, excused", db)
        else
          (.internalError "sequelize is not defined", db)

/-- Example state for the `updateBatch` claim: one batch, no users. -/
def exDB8 : DB :=
  { users := [], batches := [{ id := 1, name := "A", year := 2024, isActive := true }],
    divisions := [], sessionTypes := [], sessions := [], attendance := [],
    nextSessionId := 1, nextAttendanceId := 1 }

/-- Claim C8: the claim states that `updateBatch` on an existing batch with
both a name and a year either returns a conflict or succeeds and never ends
in an internal error.  The code violates this: `Op` is never imported in
`batch.controller.js`, so the duplicate check throws a `ReferenceError` and
every such call ends as an internal error.  This theorem evaluates the
embedding at a failing input: an existing batch, a fresh (name, year), and
the call nevertheless returns an internal error leaving the state unchanged. -/
theorem updateBatch_op_reference_error :
    updateBatch exDB8 1 (some "B") (some 2025) none = (.internalError "Op is not defined", exDB8) := by
  rfl

def exDB1 : DB :=
  { users := [{ id := 1, role := "santri", batchId := some 1, divisionId := none }],
    batches := [{ id := 1, name := "A", year := 2024, isActive := true }],
    divisions := [], sessionTypes := [{ id := 1, name := "T" }],
    sessions := [{ id := 1, date := "2025-01-01", sessionTypeId := 1, batchId := 1,
                   status := "scheduled", notes := none }],
    attendance := [], nextSessionId := 2, nextAttendanceId := 1 }

/-- Claim C1: the claim states that `bulkCreateUpdateFilteredAttendance`
applies all its row updates and creations in one all-or-nothing transaction.
The code violates the success half: the module never binds `sequelize`, so the
call `sequelize.transaction(...)` throws a `ReferenceError` before any write
and every valid call ends as an internal error with no row persisted.  This
theorem evaluates the embedding at a failing input: a valid session, a
non-empty user list and a valid status, yet the result is an internal error
and the database is unchanged (the listed user never receives the status). -/
theorem bulkCreateUpdateFiltered_reference_error :
    bulkCreateUpdateFilteredAttendance exDB1 1 [1] "present" none 2 100
      = (.internalError "sequelize is not defined", exDB1) := by
  rfl

def exDB2 : DB :=
  { users := [{ id := 5, role := "santri", batchId := some 1, divisionId := none },
              { id := 9, role := "santri", batchId := some 2, divisionId := none }],
    batches := [{ id := 1, name := "A", year := 2024, isActive := true },
                { id := 2, name := "B", year := 2024, isActive := true }],
    divisions := [], sessionTypes := [{ id := 1, name := "T" }],
    sessions := [{ id := 1, date := "2025-01-01", sessionTypeId := 1, batchId := 1,
                   status := "scheduled", notes := none }],
    attendance := [{ id := 1, sessionId := 1, userId := 5, status := "absent",
                     notes := none, verifiedBy := none, verifiedAt := none }],
    nextSessionId := 2, nextAttendanceId := 2 }

/-- Claim C2: the claim states that `updateSession` with a changed batchId
deletes the old attendance rows of the session and regenerates them for the
santri users of the new batch.  The code violates this: it compares the
request batchId against the session instance that was already updated, so the
regeneration branch never runs.  This theorem evaluates the embedding at a
failing input: session 1 moves from batch 1 to batch 2 (the call succeeds and
the stored batchId becomes 2), yet the attendance rows are exactly the stale
row of the batch-1 user and no row exists for the santri user of batch 2. -/
theorem updateSession_batch_change_keeps_stale_attendance :
    (updateSession exDB2 1 none none (some 2) none none).1 = .ok 200 ∧
    ((updateSession exDB2 1 none none (some 2) none none).2.sessions.map
      (fun s => s.batchId)) = [2] ∧
    (updateSession exDB2 1 none none (some 2) none none).2.attendance
      = [{ id := 1, sessionId := 1, userId := 5, status := "absent",
           notes := none, verifiedBy := none, verifiedAt := none }] := by
  refine ⟨rfl, rfl, rfl⟩

def exDB9 : DB :=
  { users := [{ id := 1, role := "santri", batchId := some 1, divisionId := none }],
    batches := [{ id := 1, name := "A", year := 2024, isActive := true }],
    divisions := [{ id := 1, name := "D", isActive := true }],
    sessionTypes := [], sessions := [], attendance := [],
    nextSessionId := 1, nextAttendanceId := 1 }

/-- Claim C9: for every `deleteBatch` or `deleteDivision` call on an existing
entity, if at least one user references the batch (via batchId) or the
division (via divisionId) the call is rejected and the whole state is
unchanged; if zero users reference it, the call succeeds, the entity is gone,
every other entity remains, and the users table is untouched. -/
theorem deleteBatch_deleteDivision_guard
    (db : DB) (bid did : Nat)
    (hb : (db.batches.find? (fun b => b.id == bid)).isSome = true)
    (hd : (db.divisions.find? (fun d => d.id == did)).isSome = true) :
    ((0 < (db.users.filter (fun u => u.batchId == some bid)).length →
        ∃ m, deleteBatch db bid = (.err 400 m, db)) ∧
     ((db.users.filter (fun u => u.batchId == some bid)).length = 0 →
        (deleteBatch db bid).1 = .ok 200 ∧
        (∀ b ∈ (deleteBatch db bid).2.batches, ¬(b.id = bid)) ∧
        (∀ b ∈ db.batches, ¬(b.id = bid) → b ∈ (deleteBatch db bid).2.batches) ∧
        (deleteBatch db bid).2.users = db.users)) ∧
    ((0 < (db.users.filter (fun u => u.divisionId == some did)).length →
        ∃ m, deleteDivision db did = (.err 400 m, db)) ∧
     ((db.users.filter (fun u => u.divisionId == some did)).length = 0 →
        (deleteDivision db did).1 = .ok 200 ∧
        (∀ d ∈ (deleteDivision db did).2.divisions, ¬(d.id = did)) ∧
        (∀ d ∈ db.divisions, ¬(d.id = did) → d ∈ (deleteDivision db did).2.divisions) ∧
        (deleteDivision db did).2.users = db.users)) := by
  obtain ⟨b, hbe⟩ := Option.isSome_iff_exists.mp hb
  obtain ⟨d, hde⟩ := Option.isSome_iff_exists.mp hd
  constructor
  · constructor
    · intro hpos
      simp only [deleteBatch, hbe]
      split
      · exact ⟨_, rfl⟩
      · omega
    · intro hzero
      simp only [deleteBatch, hbe, hzero]
      simp [List.mem_filter]
      exact fun x hx hne => ⟨hx, hne⟩
  · constructor
    · intro hpos
      simp only [deleteDivision, hde]
      split
      · exact ⟨_, rfl⟩
      · omega
    · intro hzero
      simp only [deleteDivision, hde, hzero]
      simp [List.mem_filter]
      exact fun x hx hne => ⟨hx, hne⟩

/-- Witness for C9 at a concrete state: batch 1 is referenced by a user and
cannot be deleted; division 1 is unreferenced and is deleted. -/
theorem deleteBatch_deleteDivision_guard_witness :
    ((exDB9.batches.find? (fun b => b.id == 1)).isSome = true) ∧
    ((exDB9.divisions.find? (fun d => d.id == 1)).isSome = true) ∧
    (∃ m, deleteBatch exDB9 1 = (.err 400 m, exDB9)) ∧
    ((deleteDivision exDB9 1).1 = .ok 200) :=
  ⟨by decide, by decide,
   (deleteBatch_deleteDivision_guard exDB9 1 1 (by decide) (by decide)).1.1 (by decide),
   ((deleteBatch_deleteDivision_guard exDB9 1 1 (by decide) (by decide)).2.2 (by decide)).1⟩


/-- Claim C10: when every user targeted by `createAttendanceRecords` (the
explicit list) or by `generateAttendanceForBatch` (the santri users of the
session batch) already has an attendance row for the session, both calls
return a 400 error and leave the database (hence every attendance row)
unchanged, rather than succeeding with zero insertions. -/
theorem attendance_generation_full_overlap_is_error
    (db : DB) (sessionId : Nat) (userIds : List Nat) (ds : Option String)
    (actor now : Nat) (session : SessionRow)
    (hne : userIds ≠ [])
    (hsess : db.sessions.find? (fun s => s.id == sessionId) = some session)
    (hstat : validStatuses.contains (jsOrStr ds "absent") = true)
    (hall : ∀ uid ∈ userIds, ∃ a ∈ db.attendance, a.sessionId = sessionId ∧ a.userId = uid)
    (hbatch : session.batchId ≠ 0)
    (husers : santriUsersOfBatch db session.batchId ≠ [])
    (hall2 : ∀ u ∈ santriUsersOfBatch db session.batchId,
      ∃ a ∈ db.attendance, a.sessionId = sessionId ∧ a.userId = u.id) :
    createAttendanceRecords db sessionId userIds ds actor now =
      (.err 400 "All specified users already have attendance records for this session", db) ∧
    generateAttendanceForBatch db sessionId ds actor now =
      (.err 400 "All users in this batch already have attendance records for this session", db) := by
  constructor
  · simp only [createAttendanceRecords, hsess, hstat]
    simp [List.isEmpty_iff, hne]
    intro x hx
    obtain ⟨a, ha, h1, h2⟩ := hall x hx
    exact ⟨a, ha, h1, h2 ▸ hx, h2⟩
  · simp only [generateAttendanceForBatch, hsess, hstat]
    simp [List.isEmpty_iff, hbatch, husers]
    intro x hx
    obtain ⟨a, ha, h1, h2⟩ := hall2 x hx
    exact ⟨a, ha, h1, x, hx, h2.symm, h2⟩

def exDB10 : DB :=
  { users := [{ id := 7, role := "santri", batchId := some 1, divisionId := none }],
    batches := [{ id := 1, name := "A", year := 2024, isActive := true }],
    divisions := [], sessionTypes := [{ id := 1, name := "T" }],
    sessions := [{ id := 1, date := "2025-01-01", sessionTypeId := 1, batchId := 1,
                   status := "scheduled", notes := none }],
    attendance := [{ id := 1, sessionId := 1, userId := 7, status := "absent",
                     notes := none, verifiedBy := none, verifiedAt := none }],
    nextSessionId := 2, nextAttendanceId := 2 }

/-- Witness for C10 at a concrete state: user 7 already has a row for
session 1, so both generation calls are rejected without changes. -/
theorem attendance_generation_full_overlap_witness :
    createAttendanceRecords exDB10 1 [7] none 2 100 =
      (.err 400 "All specified users already have attendance records for this session", exDB10) ∧
    generateAttendanceForBatch exDB10 1 none 2 100 =
      (.err 400 "All users in this batch already have attendance records for this session", exDB10) :=
  attendance_generation_full_overlap_is_error exDB10 1 [7] none 2 100
    { id := 1, date := "2025-01-01", sessionTypeId := 1, batchId := 1,
      status := "scheduled", notes := none }
    (by decide) (by decide) (by decide) (by decide) (by decide) (by decide) (by decide)

lemma mkAttendanceRows_map_userId (i sid : Nat) (us : List Nat) (st : String)
    (no : Option String) (vb va : Option Nat) :
    (mkAttendanceRows i sid us st no vb va).map (fun a => a.userId) = us := by
  induction us generalizing i with
  | nil => rfl
  | cons u rest ih => simp [mkAttendanceRows, ih]

lemma mkAttendanceRows_length (i sid : Nat) (us : List Nat) (st : String)
    (no : Option String) (vb va : Option Nat) :
    (mkAttendanceRows i sid us st no vb va).length = us.length := by
  induction us generalizing i with
  | nil => rfl
  | cons u rest ih => simp [mkAttendanceRows, ih]

lemma mkAttendanceRows_mem (i sid : Nat) (us : List Nat) (st : String)
    (no : Option String) (vb va : Option Nat) :
    ∀ a ∈ mkAttendanceRows i sid us st no vb va,
      a.sessionId = sid ∧ a.userId ∈ us ∧ a.status = st ∧ a.notes = no ∧
      a.verifiedBy = vb ∧ a.verifiedAt = va := by
  induction us generalizing i with
  | nil => intro a ha; simp [mkAttendanceRows] at ha
  | cons u rest ih =>
      intro a ha
      rcases List.mem_cons.mp ha with ha | ha
      · subst ha; simp
      · have := ih (i + 1) a ha
        simp only [List.mem_cons]
        tauto

/-- Claim C4: a `createSession` call with a well-formed date, an existing
session type, an existing batch and no duplicate (date, sessionTypeId,
batchId) succeeds, stores the session with status scheduled, and appends
exactly one attendance row per santri-role user of the batch, each with
status absent and no verifier; the created rows are exactly the santri users
(their userId list equals the santri id list), so users of other roles get
no row. -/
theorem createSession_generates_absent_rows
    (db : DB) (date : String) (sessionTypeId batchId : Nat) (notes : Option String)
    (hdate : dateRegexTest date = true)
    (hst : (db.sessionTypes.find? (fun t => t.id == sessionTypeId)).isSome = true)
    (hb : (db.batches.find? (fun b => b.id == batchId)).isSome = true)
    (hdup : db.sessions.find? (fun s =>
      s.date == date && s.sessionTypeId == sessionTypeId && s.batchId == batchId) = none) :
    (createSession db date sessionTypeId batchId notes).1 = .ok 201 ∧
    (createSession db date sessionTypeId batchId notes).2.sessions =
      db.sessions ++ [{ id := db.nextSessionId, date := date,
                        sessionTypeId := sessionTypeId, batchId := batchId,
                        status := "scheduled", notes := notes }] ∧
    (∃ rows,
      (createSession db date sessionTypeId batchId notes).2.attendance =
        db.attendance ++ rows ∧
      rows.map (fun a => a.userId) =
        (db.users.filter (fun u => u.role == "santri" && u.batchId == some batchId)).map
          (fun u => u.id) ∧
      rows.length =
        (db.users.filter (fun u => u.role == "santri" && u.batchId == some batchId)).length ∧
      ∀ a ∈ rows, a.sessionId = db.nextSessionId ∧ a.status = "absent" ∧
        a.verifiedBy = none ∧ a.verifiedAt = none) := by
  obtain ⟨st, hste⟩ := Option.isSome_iff_exists.mp hst
  obtain ⟨b, hbe⟩ := Option.isSome_iff_exists.mp hb
  have hfilter : db.users.filter (fun u => u.batchId == some batchId && u.role == "santri") =
      db.users.filter (fun u => u.role == "santri" && u.batchId == some batchId) := by
    apply List.filter_congr
    intro u hu
    rw [Bool.and_comm]
  simp only [createSession, hdate, hste, hbe, hdup, santriUsersOfBatch]
  refine ⟨rfl, rfl, mkAttendanceRows _ _ _ _ _ _ _, rfl, ?_, ?_, ?_⟩
  · rw [mkAttendanceRows_map_userId, hfilter]
  · rw [mkAttendanceRows_length, List.length_map, hfilter]
  · intro a ha
    have := mkAttendanceRows_mem _ _ _ _ _ _ _ a ha
    tauto

def exDB4 : DB :=
  { users := [{ id := 3, role := "santri", batchId := some 1, divisionId := none },
              { id := 4, role := "staff", batchId := some 1, divisionId := none }],
    batches := [{ id := 1, name := "A", year := 2024, isActive := true }],
    divisions := [], sessionTypes := [{ id := 1, name := "T" }],
    sessions := [], attendance := [], nextSessionId := 1, nextAttendanceId := 1 }

/-- Witness for C4 at a concrete state: a batch with one santri and one
staff user yields exactly the santri attendance row. -/
theorem createSession_generates_absent_rows_witness :
    (createSession exDB4 "2025-01-10" 1 1 none).1 = .ok 201 ∧
    (createSession exDB4 "2025-01-10" 1 1 none).2.sessions =
      exDB4.sessions ++ [{ id := exDB4.nextSessionId, date := "2025-01-10",
                           sessionTypeId := 1, batchId := 1,
                           status := "scheduled", notes := none }] ∧
    (∃ rows,
      (createSession exDB4 "2025-01-10" 1 1 none).2.attendance =
        exDB4.attendance ++ rows ∧
      rows.map (fun a => a.userId) =
        (exDB4.users.filter (fun u => u.role == "santri" && u.batchId == some 1)).map
          (fun u => u.id) ∧
      rows.length =
        (exDB4.users.filter (fun u => u.role == "santri" && u.batchId == some 1)).length ∧
      ∀ a ∈ rows, a.sessionId = exDB4.nextSessionId ∧ a.status = "absent" ∧
        a.verifiedBy = none ∧ a.verifiedAt = none) :=
  createSession_generates_absent_rows exDB4 "2025-01-10" 1 1 none
    (by decide) (by decide) (by decide) (by decide)

/-- Attendance rows are uniquely keyed by (sessionId, userId). -/
def UniqueSA (l : List AttendanceRow) : Prop :=
  (l.map (fun a => (a.sessionId, a.userId))).Nodup

instance (l : List AttendanceRow) : Decidable (UniqueSA l) := by
  unfold UniqueSA; infer_instance

def exDB5 : DB :=
  { users := [{ id := 7, role := "santri", batchId := some 1, divisionId := none }],
    batches := [{ id := 1, name := "A", year := 2024, isActive := true }],
    divisions := [], sessionTypes := [{ id := 1, name := "T" }],
    sessions := [{ id := 1, date := "2025-01-01", sessionTypeId := 1, batchId := 1,
                   status := "scheduled", notes := none }],
    attendance := [], nextSessionId := 2, nextAttendanceId := 1 }

/-- Counterexample to claim C5 as stated: from a state whose attendance
table has at most one row per (sessionId, userId) pair, the invocation
`createAttendanceRecords` with the duplicated input list [7, 7] creates two
rows for the pair (1, 7), because the source only filters the input against
rows already in the table, never against duplicates inside the list itself. -/
theorem createAttendanceRecords_duplicate_input_breaks_uniqueness :
    UniqueSA exDB5.attendance ∧
    ¬ UniqueSA (createAttendanceRecords exDB5 1 [7, 7] none 2 100).2.attendance := by
  decide

lemma uniqueSA_append (att rows : List AttendanceRow) (sid : Nat)
    (hU : UniqueSA att)
    (hsid : ∀ a ∈ rows, a.sessionId = sid)
    (hnodup : (rows.map (fun a => a.userId)).Nodup)
    (hclash : ∀ a ∈ att, a.sessionId = sid → ∀ b ∈ rows, b.userId ≠ a.userId) :
    UniqueSA (att ++ rows) := by
  unfold UniqueSA at *
  rw [List.map_append, List.nodup_append]
  refine ⟨hU, ?_, ?_⟩
  · have hmap : rows.map (fun a => (a.sessionId, a.userId))
        = (rows.map (fun a => a.userId)).map (fun u => (sid, u)) := by
      rw [List.map_map]
      apply List.map_congr_left
      intro a ha
      simp [hsid a ha]
    rw [hmap]
    exact hnodup.map (fun x y h => (Prod.ext_iff.mp h).2)
  · intro p hp1 hp2
    obtain ⟨a, ha, hpa⟩ := List.mem_map.mp hp1
    obtain ⟨b, hb, hpb⟩ := List.mem_map.mp hp2
    have h1 : a.sessionId = b.sessionId := by
      have := hpa.trans hpb.symm
      exact (Prod.ext_iff.mp this).1
    have h2 : a.userId = b.userId := by
      have := hpa.trans hpb.symm
      exact (Prod.ext_iff.mp this).2
    exact hclash a ha (h1.trans (hsid b hb)) b hb h2.symm

lemma createAttendanceRecords_uniqueness
    (db : DB) (sessionId : Nat) (userIds : List Nat) (ds : Option String)
    (actor now : Nat)
    (hU : UniqueSA db.attendance) (hN : userIds.Nodup) :
    UniqueSA (createAttendanceRecords db sessionId userIds ds actor now).2.attendance := by
  unfold createAttendanceRecords
  split
  · exact hU
  · split
    · exact hU
    · dsimp only
      split
      · exact hU
      · split
        · exact hU
        · refine uniqueSA_append _ _ sessionId hU ?_ ?_ ?_
          · intro a ha
            exact (mkAttendanceRows_mem _ _ _ _ _ _ _ a ha).1
          · rw [mkAttendanceRows_map_userId]
            exact hN.filter _
          · intro a ha hasid b hb hbu
            have hmem := (mkAttendanceRows_mem _ _ _ _ _ _ _ b hb).2.1
            have hbu2 := List.mem_filter.mp hmem
            have hin : a ∈ db.attendance.filter (fun x =>
                x.sessionId == sessionId && userIds.contains x.userId) := by
              refine List.mem_filter.mpr ⟨ha, ?_⟩
              simp only [Bool.and_eq_true, beq_iff_eq]
              refine ⟨hasid, ?_⟩
              simp only [← hbu]
              simpa using hbu2.1
            have : a.userId ∈ (db.attendance.filter (fun x =>
                x.sessionId == sessionId && userIds.contains x.userId)).map
                  (fun x => x.userId) :=
              List.mem_map.mpr ⟨a, hin, rfl⟩
            have hniq := hbu2.2
            rw [hbu] at hniq
            simp at hniq this
            obtain ⟨c, ⟨hc1, hc2, hc3⟩, hc4⟩ := this
            exact hniq c hc1 hc2 hc3 hc4

lemma generateAttendanceForBatch_uniqueness
    (db : DB) (sessionId : Nat) (ds : Option String) (actor now : Nat)
    (hU : UniqueSA db.attendance)
    (hUsers : (db.users.map (fun u => u.id)).Nodup) :
    UniqueSA (generateAttendanceForBatch db sessionId ds actor now).2.attendance := by
  unfold generateAttendanceForBatch
  split
  · exact hU
  · split
    · exact hU
    · dsimp only
      split
      · exact hU
      · split
        · exact hU
        · split
          · exact hU
          · refine uniqueSA_append _ _ sessionId hU ?_ ?_ ?_
            · intro a ha
              exact (mkAttendanceRows_mem _ _ _ _ _ _ _ a ha).1
            · rw [mkAttendanceRows_map_userId]
              refine hUsers.sublist ?_
              refine List.Sublist.map _ ?_
              exact (List.filter_sublist _).trans (List.filter_sublist _)
            · intro a ha hasid b hb hbu
              have hmem := (mkAttendanceRows_mem _ _ _ _ _ _ _ b hb).2.1
              obtain ⟨u, hu, hid⟩ := List.mem_map.mp hmem
              have hu2 := List.mem_filter.mp hu
              have hniq := hu2.2
              simp at hniq
              have hau : a.userId = u.id := by rw [← hbu, hid]
              exact hniq a ha hasid u hu2.1 hau.symm hau

/-- Claim C5 (amended): from a state with at most one attendance row per
(sessionId, userId) pair, `createAttendanceRecords` preserves that
uniqueness whenever its userIds list has no duplicates, and
`generateAttendanceForBatch` preserves it whenever the user table has
distinct ids (its user set is read from that table): pairs that already have
a row are skipped and only the remaining pairs are inserted.  The
unamended claim, which allows a duplicated userIds list, is refuted by the
counterexample above. -/
theorem attendance_generation_preserves_uniqueness
    (db : DB) (sessionId : Nat) (userIds : List Nat) (ds : Option String)
    (actor now : Nat)
    (hU : UniqueSA db.attendance) (hN : userIds.Nodup)
    (hUsers : (db.users.map (fun u => u.id)).Nodup) :
    UniqueSA (createAttendanceRecords db sessionId userIds ds actor now).2.attendance ∧
    UniqueSA (generateAttendanceForBatch db sessionId ds actor now).2.attendance :=
  ⟨createAttendanceRecords_uniqueness db sessionId userIds ds actor now hU hN,
   generateAttendanceForBatch_uniqueness db sessionId ds actor now hU hUsers⟩

/-- Witness for amended C5 at a concrete state with a duplicate-free user
list. -/
theorem attendance_generation_preserves_uniqueness_witness :
    UniqueSA (createAttendanceRecords exDB5 1 [7, 8] none 2 100).2.attendance ∧
    UniqueSA (generateAttendanceForBatch exDB5 1 none 2 100).2.attendance :=
  attendance_generation_preserves_uniqueness exDB5 1 [7, 8] none 2 100
    (by decide) (by decide) (by decide)

lemma findValidationError_none (items : List AttendanceItem)
    (h : ∀ it ∈ items, ¬(it.id = 0) ∧ ¬(it.status = "") ∧
      validStatuses.contains it.status = true) :
    findValidationError items = none := by
  induction items with
  | nil => rfl
  | cons it rest ih =>
      obtain ⟨h1, h2, h3⟩ := h it (List.mem_cons_self _ _)
      have hc1 : (it.id == 0 || it.status == "") = false := by
        simp [h1, h2]
      have hc2 : (!(validStatuses.contains it.status)) = false := by
        rw [h3]; rfl
      simp only [findValidationError, hc1, hc2, Bool.false_eq_true, if_false]
      exact ih (fun x hx => h x (List.mem_cons_of_mem _ hx))

lemma findValidationError_some (items : List AttendanceItem)
    (h : ∃ it ∈ items, it.id = 0 ∨ it.status = "" ∨
      validStatuses.contains it.status = false) :
    ∃ m, findValidationError items = some m := by
  induction items with
  | nil => simp at h
  | cons it rest ih =>
      simp only [findValidationError]
      split
      · exact ⟨_, rfl⟩
      · split
        · exact ⟨_, rfl⟩
        · next hc1 hc2 =>
            apply ih
            rcases h with ⟨x, hx, hprop⟩
            rcases List.mem_cons.mp hx with heq | hx2
            · subst heq
              exfalso
              simp only [Bool.or_eq_true, beq_iff_eq] at hc1
              simp only [Bool.not_eq_true, Bool.not_eq_false] at hc2
              rcases hprop with hp | hp | hp
              · exact hc1 (Or.inl hp)
              · exact hc1 (Or.inr hp)
              · have hc3 : validStatuses.contains x.status = true := by
                  simpa using hc2
                rw [hc3] at hp; cases hp
            · exact ⟨x, hx2, hprop⟩

/-- The per-row effect of the `bulkUpdateAttendance` write loop. -/
def rowFold (sessionId actor now : Nat) (items : List AttendanceItem)
    (a : AttendanceRow) : AttendanceRow :=
  items.foldl (fun a it => updateRowWithItem sessionId actor now it a) a

lemma applyBulkUpdates_cons (sessionId actor now : Nat) (it : AttendanceItem)
    (rest : List AttendanceItem) (att : List AttendanceRow) :
    applyBulkUpdates sessionId actor now (it :: rest) att =
      applyBulkUpdates sessionId actor now rest
        (att.map (updateRowWithItem sessionId actor now it)) := rfl

lemma rowFold_cons (sessionId actor now : Nat) (it : AttendanceItem)
    (rest : List AttendanceItem) (a : AttendanceRow) :
    rowFold sessionId actor now (it :: rest) a =
      rowFold sessionId actor now rest (updateRowWithItem sessionId actor now it a) := rfl

lemma applyBulkUpdates_length (sessionId actor now : Nat)
    (items : List AttendanceItem) (att : List AttendanceRow) :
    (applyBulkUpdates sessionId actor now items att).length = att.length := by
  induction items generalizing att with
  | nil => rfl
  | cons it rest ih => rw [applyBulkUpdates_cons, ih, List.length_map]

lemma applyBulkUpdates_getElem (sessionId actor now : Nat)
    (items : List AttendanceItem) (att : List AttendanceRow) (i : Nat) :
    (applyBulkUpdates sessionId actor now items att)[i]? =
      att[i]?.map (rowFold sessionId actor now items) := by
  induction items generalizing att with
  | nil =>
      cases h : att[i]? <;> simp [applyBulkUpdates, rowFold, h]
  | cons it rest ih =>
      rw [applyBulkUpdates_cons, ih, List.getElem?_map, Option.map_map]
      cases h : att[i]? <;> simp [h, rowFold_cons, Function.comp]

lemma updateRowWithItem_preserves (sessionId actor now : Nat) (it : AttendanceItem)
    (a : AttendanceRow) :
    (updateRowWithItem sessionId actor now it a).id = a.id ∧
    (updateRowWithItem sessionId actor now it a).userId = a.userId ∧
    (updateRowWithItem sessionId actor now it a).sessionId = a.sessionId := by
  unfold updateRowWithItem
  split <;> simp

lemma rowFold_not_matching (sessionId actor now : Nat)
    (items : List AttendanceItem) (a : AttendanceRow)
    (h : ∀ it ∈ items, ¬(it.id = a.id ∧ a.sessionId = sessionId)) :
    rowFold sessionId actor now items a = a := by
  induction items with
  | nil => rfl
  | cons it rest ih =>
      have hhd := h it (List.mem_cons_self _ _)
      have hstep : updateRowWithItem sessionId actor now it a = a := by
        unfold updateRowWithItem
        rw [if_neg]
        simp only [Bool.and_eq_true, beq_iff_eq, not_and]
        intro hid hsid
        exact hhd ⟨hid.symm, hsid⟩
      rw [rowFold_cons, hstep]
      exact ih (fun x hx => h x (List.mem_cons_of_mem _ hx))

lemma rowFold_matching (sessionId actor now : Nat)
    (items : List AttendanceItem) (a : AttendanceRow)
    (h : ∃ it ∈ items, it.id = a.id ∧ a.sessionId = sessionId) :
    (rowFold sessionId actor now items a).id = a.id ∧
    (rowFold sessionId actor now items a).userId = a.userId ∧
    (rowFold sessionId actor now items a).sessionId = a.sessionId ∧
    (rowFold sessionId actor now items a).verifiedBy = some actor ∧
    (rowFold sessionId actor now items a).verifiedAt = some now ∧
    ∃ it ∈ items, it.id = a.id ∧ (rowFold sessionId actor now items a).status = it.status := by
  induction items generalizing a with
  | nil => simp at h
  | cons it rest ih =>
      have hpres := updateRowWithItem_preserves sessionId actor now it a
      rw [rowFold_cons]
      by_cases hrest : ∃ x ∈ rest, x.id = a.id ∧ a.sessionId = sessionId
      · have hrest2 : ∃ x ∈ rest,
            x.id = (updateRowWithItem sessionId actor now it a).id ∧
            (updateRowWithItem sessionId actor now it a).sessionId = sessionId := by
          obtain ⟨x, hx, hx1, hx2⟩ := hrest
          exact ⟨x, hx, by rw [hpres.1]; exact hx1, by rw [hpres.2.2]; exact hx2⟩
        have hfold := ih (updateRowWithItem sessionId actor now it a) hrest2
        refine ⟨hfold.1.trans hpres.1, hfold.2.1.trans hpres.2.1,
          hfold.2.2.1.trans hpres.2.2, hfold.2.2.2.1, hfold.2.2.2.2.1, ?_⟩
        obtain ⟨x, hx, hx1, hx2⟩ := hfold.2.2.2.2.2
        exact ⟨x, List.mem_cons_of_mem _ hx, by rw [← hpres.1]; exact hx1, hx2⟩
      · have hhd : it.id = a.id ∧ a.sessionId = sessionId := by
          rcases h with ⟨x, hx, hx1, hx2⟩
          rcases List.mem_cons.mp hx with heq | hx3
          · subst heq; exact ⟨hx1, hx2⟩
          · exact absurd ⟨x, hx3, hx1, hx2⟩ hrest
        have hc : (a.id == it.id && a.sessionId == sessionId) = true := by
          simp [hhd.1, hhd.2]
        have hnone : ∀ x ∈ rest,
            ¬(x.id = (updateRowWithItem sessionId actor now it a).id ∧
              (updateRowWithItem sessionId actor now it a).sessionId = sessionId) := by
          intro x hx hcon
          refine hrest ⟨x, hx, ?_, ?_⟩
          · rw [← hpres.1]; exact hcon.1
          · rw [← hpres.2.2]; exact hcon.2
        rw [rowFold_not_matching _ _ _ _ _ hnone]
        unfold updateRowWithItem
        rw [if_pos hc]
        exact ⟨rfl, rfl, rfl, rfl, rfl, it, List.mem_cons_self _ _, hhd.1, rfl⟩

/-- Claim C7: for `bulkUpdateAttendance` on an existing session with a
non-empty entry list, (1) if some entry lacks an id or a status or carries a
status outside the enumerated set, the call returns a 400 validation error
and the state is unchanged; (2) if every entry is valid the call succeeds,
the attendance table keeps its length, every row matched by no entry (by id
and the given sessionId) is unchanged, and every matched row keeps its id,
user and session, is stamped with the verifier and time, and carries the
status of a matching entry; entries with no matching row cause no error. -/
theorem bulkUpdateAttendance_validates_then_updates
    (db : DB) (sessionId : Nat) (items : List AttendanceItem) (actor now : Nat)
    (hsess : (db.sessions.find? (fun s => s.id == sessionId)).isSome = true)
    (hne : items ≠ []) :
    ((∃ it ∈ items, it.id = 0 ∨ it.status = "" ∨
        validStatuses.contains it.status = false) →
       ∃ m, bulkUpdateAttendance db sessionId items actor now = (.err 400 m, db)) ∧
    ((∀ it ∈ items, ¬(it.id = 0) ∧ ¬(it.status = "") ∧
        validStatuses.contains it.status = true) →
       (bulkUpdateAttendance db sessionId items actor now).1 = .ok 200 ∧
       (bulkUpdateAttendance db sessionId items actor now).2.attendance.length =
         db.attendance.length ∧
       ∀ (i : Nat) (a : AttendanceRow), db.attendance[i]? = some a →
         ((∀ it ∈ items, ¬(it.id = a.id ∧ a.sessionId = sessionId)) →
            (bulkUpdateAttendance db sessionId items actor now).2.attendance[i]? = some a) ∧
         ((∃ it ∈ items, it.id = a.id ∧ a.sessionId = sessionId) →
            ∃ b, (bulkUpdateAttendance db sessionId items actor now).2.attendance[i]? = some b ∧
              b.id = a.id ∧ b.userId = a.userId ∧ b.sessionId = a.sessionId ∧
              b.verifiedBy = some actor ∧ b.verifiedAt = some now ∧
              ∃ it ∈ items, it.id = a.id ∧ b.status = it.status)) := by
  obtain ⟨sess, hse⟩ := Option.isSome_iff_exists.mp hsess
  have hni : items.isEmpty = false := by
    cases items with
    | nil => exact absurd rfl hne
    | cons a b => rfl
  constructor
  · intro hinv
    obtain ⟨m, hm⟩ := findValidationError_some items hinv
    exact ⟨m, by simp [bulkUpdateAttendance, hni, hse, hm]⟩
  · intro hval
    have hnone := findValidationError_none items hval
    have heq : bulkUpdateAttendance db sessionId items actor now =
        (.ok 200,
          { db with attendance := applyBulkUpdates sessionId actor now items db.attendance }) := by
      simp [bulkUpdateAttendance, hni, hse, hnone]
    rw [heq]
    refine ⟨rfl, applyBulkUpdates_length _ _ _ _ _, ?_⟩
    intro i a hia
    constructor
    · intro hno
      show (applyBulkUpdates sessionId actor now items db.attendance)[i]? = some a
      rw [applyBulkUpdates_getElem, hia]
      simp [rowFold_not_matching _ _ _ _ _ hno]
    · intro hyes
      refine ⟨rowFold sessionId actor now items a, ?_,
        rowFold_matching _ _ _ _ _ hyes⟩
      show (applyBulkUpdates sessionId actor now items db.attendance)[i]? =
        some (rowFold sessionId actor now items a)
      rw [applyBulkUpdates_getElem, hia]
      rfl

def exDB7 : DB :=
  { users := [{ id := 7, role := "santri", batchId := some 1, divisionId := none }],
    batches := [{ id := 1, name := "A", year := 2024, isActive := true }],
    divisions := [], sessionTypes := [{ id := 1, name := "T" }],
    sessions := [{ id := 1, date := "2025-01-01", sessionTypeId := 1, batchId := 1,
                   status := "scheduled", notes := none }],
    attendance := [{ id := 1, sessionId := 1, userId := 7, status := "absent",
                     notes := none, verifiedBy := none, verifiedAt := none },
                   { id := 2, sessionId := 2, userId := 8, status := "absent",
                     notes := none, verifiedBy := none, verifiedAt := none }],
    nextSessionId := 2, nextAttendanceId := 3 }

/-- Witness for C7 at a concrete state: one entry matches a row of the
session, the other entry (id 99) matches nothing and is skipped without
error. -/
theorem bulkUpdateAttendance_validates_then_updates_witness :
    (bulkUpdateAttendance exDB7 1
      [{ id := 1, status := "present", notes := none },
       { id := 99, status := "late", notes := none }] 2 100).1 = .ok 200 ∧
    (bulkUpdateAttendance exDB7 1
      [{ id := 1, status := "present", notes := none },
       { id := 99, status := "late", notes := none }] 2 100).2.attendance.length =
      exDB7.attendance.length :=
  have h := (bulkUpdateAttendance_validates_then_updates exDB7 1
    [{ id := 1, status := "present", notes := none },
     { id := 99, status := "late", notes := none }] 2 100
    (by decide) (by decide)).2 (by decide)
  ⟨h.1, h.2.1⟩

lemma filter_status_partition (l : List AttendanceRow) (c : AttendanceRow → Bool)
    (h : ∀ a ∈ l, a.status = "present" ∨ a.status = "absent" ∨
      a.status = "late" ∨ a.status = "excused") :
    (l.filter (fun a => c a && a.status == "present")).length +
    (l.filter (fun a => c a && a.status == "absent")).length +
    (l.filter (fun a => c a && a.status == "late")).length +
    (l.filter (fun a => c a && a.status == "excused")).length
    = (l.filter c).length := by
  induction l with
  | nil => rfl
  | cons a t ih =>
      have ht := ih (fun x hx => h x (List.mem_cons_of_mem _ hx))
      have ha := h a (List.mem_cons_self _ _)
      by_cases hc : c a = true
      · rcases ha with h1 | h1 | h1 | h1 <;>
          · simp [List.filter_cons, hc, h1]
            omega
      · have hc2 : c a = false := by
          cases hcv : c a
          · rfl
          · exact absurd hcv hc
        simp only [List.filter_cons, hc2, Bool.false_and, Bool.false_eq_true, if_false]
        omega

/-- Claim C6: `getAttendanceStats` filters sessions by the inclusive date
range and batch; when no session matches it returns the zeroed structure,
and when at least one matches it returns the number of matching sessions,
counts attendance rows of those sessions (total and per status, the four
status counts summing to the total), and the attendance rate
(present + late) / total x 100 rounded to two decimals, with rate 0 when the
total is 0. -/
theorem getAttendanceStats_spec
    (db : DB) (sd ed : Option String) (bid : Option Nat)
    (hstatus : ∀ a ∈ db.attendance, a.status = "present" ∨ a.status = "absent" ∨
      a.status = "late" ∨ a.status = "excused") :
    ((∀ s ∈ db.sessions, sessionMatchesFilter sd ed bid s = false) →
       getAttendanceStats db sd ed bid = zeroStats) ∧
    ((∃ s ∈ db.sessions, sessionMatchesFilter sd ed bid s = true) →
       (getAttendanceStats db sd ed bid).totalSessions =
         db.sessions.countP (sessionMatchesFilter sd ed bid) ∧
       (getAttendanceStats db sd ed bid).totalAttendanceRecords =
         db.attendance.countP (fun a =>
           ((db.sessions.filter (sessionMatchesFilter sd ed bid)).map
             (fun s => s.id)).contains a.sessionId) ∧
       (getAttendanceStats db sd ed bid).present +
         (getAttendanceStats db sd ed bid).absent +
         (getAttendanceStats db sd ed bid).late +
         (getAttendanceStats db sd ed bid).excused =
         (getAttendanceStats db sd ed bid).totalAttendanceRecords ∧
       (getAttendanceStats db sd ed bid).attendanceRate =
         (if (getAttendanceStats db sd ed bid).totalAttendanceRecords = 0 then 0 else
           round2 ((((getAttendanceStats db sd ed bid).present : Rat) +
             ((getAttendanceStats db sd ed bid).late : Rat)) /
             ((getAttendanceStats db sd ed bid).totalAttendanceRecords : Rat) * 100))) := by
  constructor
  · intro hnone
    have hnil : db.sessions.filter (sessionMatchesFilter sd ed bid) = [] := by
      refine List.filter_eq_nil_iff.mpr ?_
      intro s hs
      simp [hnone s hs]
    simp [getAttendanceStats, hnil]
  · intro hsome
    obtain ⟨s, hs, hmatch⟩ := hsome
    have hne : db.sessions.filter (sessionMatchesFilter sd ed bid) ≠ [] :=
      List.ne_nil_of_mem (List.mem_filter.mpr ⟨hs, hmatch⟩)
    have hie : ((db.sessions.filter (sessionMatchesFilter sd ed bid)).map
        (fun s => s.id)).isEmpty = false := by
      rw [List.isEmpty_eq_false]
      simpa using hne
    have heq : getAttendanceStats db sd ed bid =
        { totalSessions := (db.sessions.filter (sessionMatchesFilter sd ed bid)).length,
          totalAttendanceRecords := (db.attendance.filter (fun a =>
            ((db.sessions.filter (sessionMatchesFilter sd ed bid)).map
              (fun s => s.id)).contains a.sessionId)).length,
          present := (db.attendance.filter (fun a =>
            ((db.sessions.filter (sessionMatchesFilter sd ed bid)).map
              (fun s => s.id)).contains a.sessionId && a.status == "present")).length,
          absent := (db.attendance.filter (fun a =>
            ((db.sessions.filter (sessionMatchesFilter sd ed bid)).map
              (fun s => s.id)).contains a.sessionId && a.status == "absent")).length,
          late := (db.attendance.filter (fun a =>
            ((db.sessions.filter (sessionMatchesFilter sd ed bid)).map
              (fun s => s.id)).contains a.sessionId && a.status == "late")).length,
          excused := (db.attendance.filter (fun a =>
            ((db.sessions.filter (sessionMatchesFilter sd ed bid)).map
              (fun s => s.id)).contains a.sessionId && a.status == "excused")).length,
          attendanceRate := round2 (rateOf
            (db.attendance.filter (fun a =>
              ((db.sessions.filter (sessionMatchesFilter sd ed bid)).map
                (fun s => s.id)).contains a.sessionId && a.status == "present")).length
            (db.attendance.filter (fun a =>
              ((db.sessions.filter (sessionMatchesFilter sd ed bid)).map
                (fun s => s.id)).contains a.sessionId && a.status == "late")).length
            (db.attendance.filter (fun a =>
              ((db.sessions.filter (sessionMatchesFilter sd ed bid)).map
                (fun s => s.id)).contains a.sessionId)).length) } := by
      simp only [getAttendanceStats, hie, Bool.false_eq_true, if_false]
    rw [heq]
    refine ⟨?_, ?_, ?_, ?_⟩
    · simp [List.countP_eq_length_filter]
    · simp [List.countP_eq_length_filter]
    · exact filter_status_partition db.attendance _ hstatus
    · by_cases hz : (db.attendance.filter (fun a =>
          ((db.sessions.filter (sessionMatchesFilter sd ed bid)).map
            (fun s => s.id)).contains a.sessionId)).length = 0
      · simp only [hz, if_pos rfl]
        have hp : (db.attendance.filter (fun a =>
            ((db.sessions.filter (sessionMatchesFilter sd ed bid)).map
              (fun s => s.id)).contains a.sessionId && a.status == "present")).length = 0 ∧
            (db.attendance.filter (fun a =>
            ((db.sessions.filter (sessionMatchesFilter sd ed bid)).map
              (fun s => s.id)).contains a.sessionId && a.status == "late")).length = 0 := by
          have hsum := filter_status_partition db.attendance (fun a =>
            ((db.sessions.filter (sessionMatchesFilter sd ed bid)).map
              (fun s => s.id)).contains a.sessionId) hstatus
          simp only [] at hsum
          omega
        rw [hp.1, hp.2]
        simp [rateOf, round2]
      · rw [if_neg hz]
        have hpos : 0 < (db.attendance.filter (fun a =>
            ((db.sessions.filter (sessionMatchesFilter sd ed bid)).map
              (fun s => s.id)).contains a.sessionId)).length := Nat.pos_of_ne_zero hz
        simp only [rateOf]
        rw [if_pos hpos]

def exDB6 : DB :=
  { users := [{ id := 1, role := "santri", batchId := some 1, divisionId := none },
              { id := 2, role := "santri", batchId := some 1, divisionId := none },
              { id := 3, role := "santri", batchId := some 1, divisionId := none }],
    batches := [{ id := 1, name := "2025 Cohort", year := 2025, isActive := true }],
    divisions := [], sessionTypes := [{ id := 1, name := "T" }],
    sessions := [{ id := 1, date := "2025-01-10", sessionTypeId := 1, batchId := 1,
                   status := "scheduled", notes := none }],
    attendance := [{ id := 1, sessionId := 1, userId := 1, status := "present",
                     notes := none, verifiedBy := none, verifiedAt := none },
                   { id := 2, sessionId := 1, userId := 2, status := "late",
                     notes := none, verifiedBy := none, verifiedAt := none },
                   { id := 3, sessionId := 1, userId := 3, status := "absent",
                     notes := none, verifiedBy := none, verifiedAt := none }],
    nextSessionId := 2, nextAttendanceId := 4 }

/-- Witness for C6: the spec example (one present, one late, one absent row)
on the matching range, and the zeroed structure on a range matching nothing. -/
theorem getAttendanceStats_spec_witness :
    getAttendanceStats exDB6 (some "2026-01-01") none none = zeroStats ∧
    (getAttendanceStats exDB6 (some "2025-01-01") (some "2025-12-31") (some 1)).present +
      (getAttendanceStats exDB6 (some "2025-01-01") (some "2025-12-31") (some 1)).absent +
      (getAttendanceStats exDB6 (some "2025-01-01") (some "2025-12-31") (some 1)).late +
      (getAttendanceStats exDB6 (some "2025-01-01") (some "2025-12-31") (some 1)).excused =
      (getAttendanceStats exDB6 (some "2025-01-01") (some "2025-12-31") (some 1)).totalAttendanceRecords :=
  ⟨(getAttendanceStats_spec exDB6 (some "2026-01-01") none none (by decide)).1 (by decide),
   ((getAttendanceStats_spec exDB6 (some "2025-01-01") (some "2025-12-31") (some 1)
      (by decide)).2 (by decide)).2.2.1⟩

